import Mathlib

/-!
# Verification of the evofr inference-orchestration and generative-model core

Shallow embedding of `evofr/infer/InferBlackJax.py`,
`evofr/models/renewal_model/model_factories.py` and
`evofr/models/multinomial_logistic_regression.py`.

Conventions of the embedding:
* JAX PRNG keys are modelled as natural numbers.  `random.split` is a pure
  function producing two fresh child keys; `random.split(key, n)` produces a
  list of `n` child keys and raises on a negative count (modelled as
  `Except`).
* Python dictionaries are modelled as partial functions `K → Option V`; the
  merge `{**d1, **d2}` is `Dict.union d1 d2` (the second dictionary wins on
  shared keys).
* Attributes that a Python object may or may not carry (`hasattr` probing)
  are modelled as `Option`-valued record fields; an attribute that can be
  present *and* bound to `None` is modelled as `Option (Option _)`.
* External collaborators excluded by the spec (numpyro's `initialize_model`
  and `Predictive`, blackjax's `window_adaptation`, the transition kernel)
  are parameters of the definitions; the theorems hold for every behaviour
  of these collaborators.
* JAX real arithmetic is idealised over `ℝ` in the generative-model part.
-/

/-- `random.PRNGKey(seed)` -- a fresh key derived from a seed. -/
def PRNGKey (seed : ℕ) : ℕ := seed

/-- `random.split(key)` -- two fresh child keys, both distinct from the
parent.  Modelled as the two children of `key` in the infinite binary tree. -/
def keySplit (key : ℕ) : ℕ × ℕ := (2 * key + 1, 2 * key + 2)

/-- Exceptions that the orchestrator can surface.  `configurationError` is the
fatal error raised for an invalid run configuration (in the code it is raised
by `random.split(key, num_samples)` when the requested count is negative);
`attributeError` is Python's `AttributeError` for a missing attribute. -/
inductive EvofrError
  | configurationError
  | attributeError
deriving DecidableEq

/-- `random.split(key, num)` -- a list of `num` fresh child keys; raises when
`num` is negative (a negative array dimension). -/
def keySplitN (key : ℕ) (num : ℤ) : Except EvofrError (List ℕ) :=
  if num < 0 then Except.error EvofrError.configurationError
  else Except.ok ((List.range num.toNat).map (fun i => Nat.pair key i))

/-- A Python dictionary with keys `K` and values `V`. -/
def Dict (K V : Type) := K → Option V

/-- The Python merge `{**d1, **d2}`: entries of `d2` win on shared keys. -/
def Dict.union {K V : Type} (d1 d2 : Dict K V) : Dict K V :=
  fun k => match d2 k with
    | some v => some v
    | none => d1 k

/-- The empty dictionary `dict()`. -/
def Dict.empty {K V : Type} : Dict K V := fun _ => none

/-- Modelled from the spec: the `Backend` enum of `evofr.infer.backends` is
not among the provided sources.  The spec names exactly two interchangeable
strategies ("managed" = `NUMPYRO`, "custom" = `PROVIDED`); the constructor
`other` stands for any further value that matches neither known capability
(Python does not enforce the `Optional[Backend]` annotation, and the dispatch
in `BlackJaxHandler._predict` / `_initialize` has an explicit fall-through
for unrecognised values). -/
inductive Backend
  | numpyro
  | provided
  | other
deriving DecidableEq

/-- A `ModelSpec` as seen by `InferBlackJax.py`: the optional fields model
`hasattr` probing on the Python object (`none` = attribute absent). -/
structure ModelSpec (Pos Mf Dt K V : Type) where
  backend? : Option Backend
  model_fn : Mf
  logdensity_fn_gen? : Option (Dt → Pos → Option ℚ)
  logdensity_fn? : Option (Pos → Option ℚ)
  initial_position? : Option Pos
  initial_position_fn? : Option (ℕ → Pos)
  pred_fn? : Option (ℕ → Dict K (List V) → Dt → Dict K (List V))

section Infer

variable {Pos St In Mf Dt K V : Type}

/-- `BlackJaxNumpyro.init(key, model, data)`.  The external collaborator
`E` is numpyro's `initialize_model`, returning `(init_parms.z,
potential_fn_gen)`; the log-density is the negated potential. -/
def BlackJaxNumpyro.init (E : ℕ → Mf → Dt → Pos × (Dt → Pos → ℚ))
    (key : ℕ) (model_fn : Mf) (data : Dt) : Option Pos × (Pos → Option ℚ) :=
  let p := keySplit key
  let r := E p.2 model_fn data
  (some r.1, fun position => some (-(r.2 data position)))

/-- `BlackJaxNumpyro.predict(key, model, data, samples)`.  The external
collaborator `P` is numpyro's `Predictive(model, samples)` applied to a
sub-key and the data.  Returns `{**samples, **samples_pred}`. -/
def BlackJaxNumpyro.predict
    (P : Mf → Dict K (List V) → ℕ → Dt → Dict K (List V))
    (key : ℕ) (model_fn : Mf) (data : Dt) (samples : Dict K (List V)) :
    Dict K (List V) :=
  let predictive := P model_fn samples
  let p := keySplit key
  let samples_pred := predictive p.2 data
  Dict.union samples samples_pred

/-- `BlackJaxProvided.init(key, model, data)`: the model supplies its own
log-density (or generator) and initial position (or generator); the
fall-through log-density is `lambda _: None`. -/
def BlackJaxProvided.init (key : ℕ) (model : ModelSpec Pos Mf Dt K V)
    (data : Dt) : Option Pos × (Pos → Option ℚ) :=
  let logdensity_fn :=
    match model.logdensity_fn_gen? with
    | some g => g data
    | none =>
      match model.logdensity_fn? with
      | some f => f
      | none => fun _ => none
  let init_position :=
    match model.initial_position? with
    | some p => some p
    | none =>
      match model.initial_position_fn? with
      | some f => some (f key)
      | none => none
  (init_position, logdensity_fn)

/-- `BlackJaxProvided.predict(key, model, data, samples)`: returns `samples`
unchanged when the model has no `pred_fn`, otherwise
`{**samples, **model.pred_fn(key, samples, data)}`. -/
def BlackJaxProvided.predict (key : ℕ) (model : ModelSpec Pos Mf Dt K V)
    (data : Dt) (samples : Dict K (List V)) : Dict K (List V) :=
  match model.pred_fn? with
  | none => samples
  | some f => Dict.union samples (f key samples data)

/-- The effective backend of `BlackJaxHandler._initialize` / `_predict`:
an explicitly passed backend wins, otherwise the model's own `backend`
attribute is consulted (`hasattr(model, "backend") and backend is None`). -/
def effectiveBackend (model : ModelSpec Pos Mf Dt K V)
    (backend : Option Backend) : Option Backend :=
  backend.or model.backend?

/-- `BlackJaxHandler._initialize(key, model, data, backend)`: dispatch to the
numpyro backend (also the default when no backend is given), the provided
backend, or the fall-through `(None, lambda _: None)`. -/
def resolve_init (E : ℕ → Mf → Dt → Pos × (Dt → Pos → ℚ))
    (key : ℕ) (model : ModelSpec Pos Mf Dt K V) (data : Dt)
    (backend : Option Backend) : Option Pos × (Pos → Option ℚ) :=
  match effectiveBackend model backend with
  | none => BlackJaxNumpyro.init E key model.model_fn data
  | some Backend.numpyro => BlackJaxNumpyro.init E key model.model_fn data
  | some Backend.provided => BlackJaxProvided.init key model data
  | some Backend.other => (none, fun _ => none)

/-- `BlackJaxHandler._predict(key, model, data, samples, backend)`: dispatch
as in `resolve_init`; the final fall-through returns `dict()`. -/
def resolve_predict (P : Mf → Dict K (List V) → ℕ → Dt → Dict K (List V))
    (key : ℕ) (model : ModelSpec Pos Mf Dt K V) (data : Dt)
    (samples : Dict K (List V)) (backend : Option Backend) :
    Dict K (List V) :=
  match effectiveBackend model backend with
  | some Backend.numpyro => BlackJaxNumpyro.predict P key model.model_fn data samples
  | some Backend.provided => BlackJaxProvided.predict key model data samples
  | none => BlackJaxNumpyro.predict P key model.model_fn data samples
  | some Backend.other => Dict.empty

/-- A blackjax transition kernel object as the orchestrator uses it:
`kernel.init(position)` builds a starting state, and `kernel(rng_key, state)`
performs one transition returning `(new_state, info)`. -/
structure KernelObj (Pos St In : Type) where
  init : Option Pos → St
  step : ℕ → St → St × In

/-- `BlackJaxHandler`.  `state` is the attribute assigned `None` in
`__init__` (and never read elsewhere); `states_attr` models the `states`
attribute, which `__init__` never assigns (`none`) and `fit` sets to the
collected `(states, infos)` of the sampling loop (`some (some _)`). -/
structure Handler (Pos St In : Type) where
  kernel_fn : (Pos → Option ℚ) → KernelObj Pos St In
  seed : ℕ
  rng_key : ℕ
  state : Option (List St × List In)
  states_attr : Option (Option (List St × List In))

/-- `BlackJaxHandler.__init__(kernel, **kernel_kwargs)`: the seed is the
fixed default `100`, the stored rng key is `PRNGKey(seed)`, the misnamed
`state` attribute is set to `None`, and no `states` attribute is created. -/
def mkHandler (kernel : (Pos → Option ℚ) → KernelObj Pos St In) :
    Handler Pos St In :=
  ⟨kernel, 100, PRNGKey 100, none, none⟩

/-- `BlackJaxHandler.inference_loop(rng_key, kernel, initial_state,
num_samples)`: split `num_samples` keys from `rng_key` (raising on a
negative count), then scan `one_step` over them in strict order, collecting
every intermediate state and info. -/
def inference_loop (kernel : ℕ → St → St × In) (rng_key : ℕ)
    (initial_state : St) (num_samples : ℤ) :
    Except EvofrError (List St × List In) :=
  match keySplitN rng_key num_samples with
  | Except.error e => Except.error e
  | Except.ok keys =>
    let r := keys.foldl
      (fun acc k =>
        let s := kernel k acc.1
        (s.1, acc.2.1 ++ [s.1], acc.2.2 ++ [s.2]))
      (initial_state, ([] : List St), ([] : List In))
    Except.ok (r.2.1, r.2.2)

/-- Core of `BlackJaxHandler.run_warmup`: clamp `num_warmup` to at least 1,
build the window adaptation `W` from the stored kernel factory and the
log-density, split the stored key once, and run the adaptation on the
sub-key; returns the advanced stored key, the last state and the tuned
kernel.  `W` is blackjax's `window_adaptation`, an external collaborator. -/
def run_warmup_core
    (W : ((Pos → Option ℚ) → KernelObj Pos St In) → (Pos → Option ℚ) → ℤ →
      ℕ → Option Pos → St × KernelObj Pos St In)
    (kernel_fn : (Pos → Option ℚ) → KernelObj Pos St In) (rng_key : ℕ)
    (initial_position : Option Pos) (logdensity_fn : Pos → Option ℚ)
    (num_warmup : ℤ) : ℕ × St × KernelObj Pos St In :=
  let nw := if num_warmup < 1 then 1 else num_warmup
  let adapt := W kernel_fn logdensity_fn nw
  let p := keySplit rng_key
  ⟨p.1, adapt p.2 initial_position⟩

/-- `BlackJaxHandler.run_warmup`: the method form, returning the handler
with its stored key advanced once together with `(last_state, kernel)`. -/
def Handler.run_warmup
    (W : ((Pos → Option ℚ) → KernelObj Pos St In) → (Pos → Option ℚ) → ℤ →
      ℕ → Option Pos → St × KernelObj Pos St In)
    (h : Handler Pos St In) (initial_position : Option Pos)
    (logdensity_fn : Pos → Option ℚ) (num_warmup : ℤ) :
    Handler Pos St In × St × KernelObj Pos St In :=
  let r := run_warmup_core W h.kernel_fn h.rng_key initial_position
    logdensity_fn num_warmup
  ⟨⟨h.kernel_fn, h.seed, r.1, h.state, h.states_attr⟩, r.2⟩

/-- Core of `BlackJaxHandler.fit`, as a function of the stored kernel
factory and rng key: split once for initialisation, resolve `(position,
log-density)`, warm up (one further split) when `num_warmup > 0` or build
the kernel directly otherwise, split once more for the sampling loop, and
run the loop.  Returns the final stored key and the collected
`(states, infos)`. -/
def fit_core (E : ℕ → Mf → Dt → Pos × (Dt → Pos → ℚ))
    (W : ((Pos → Option ℚ) → KernelObj Pos St In) → (Pos → Option ℚ) → ℤ →
      ℕ → Option Pos → St × KernelObj Pos St In)
    (kernel_fn : (Pos → Option ℚ) → KernelObj Pos St In) (rng_key : ℕ)
    (model : ModelSpec Pos Mf Dt K V) (data : Dt)
    (num_warmup num_samples : ℤ) :
    Except EvofrError (ℕ × List St × List In) :=
  let p1 := keySplit rng_key
  let r0 := resolve_init E p1.2 model data none
  let w :=
    if 0 < num_warmup then
      run_warmup_core W kernel_fn p1.1 r0.1 r0.2 num_warmup
    else
      ⟨p1.1, (kernel_fn r0.2).init r0.1, kernel_fn r0.2⟩
  let p2 := keySplit w.1
  match inference_loop w.2.2.step p2.2 w.2.1 num_samples with
  | Except.error e => Except.error e
  | Except.ok r => Except.ok (p2.1, r)

/-- `BlackJaxHandler.fit(model, data, num_warmup, num_samples)`: the method
form; on success the handler's stored key is advanced and its `states`
attribute is assigned the collected states and infos. -/
def Handler.fit (E : ℕ → Mf → Dt → Pos × (Dt → Pos → ℚ))
    (W : ((Pos → Option ℚ) → KernelObj Pos St In) → (Pos → Option ℚ) → ℤ →
      ℕ → Option Pos → St × KernelObj Pos St In)
    (h : Handler Pos St In) (model : ModelSpec Pos Mf Dt K V) (data : Dt)
    (num_warmup num_samples : ℤ) :
    Except EvofrError (Handler Pos St In) :=
  match fit_core E W h.kernel_fn h.rng_key model data num_warmup num_samples with
  | Except.error e => Except.error e
  | Except.ok r => Except.ok ⟨h.kernel_fn, h.seed, r.1, h.state, some (some r.2)⟩

/-- Stacking of the scanned states' `.position` field: the draw-indexed
collection of each parameter, as jax's pytree stacking produces it. -/
def stack_positions (position : St → Dict K V) (sts : List St) :
    Dict K (List V) :=
  fun k => (sts.map (fun s => position s k)).foldr
    (fun ov acc =>
      match ov, acc with
      | some v, some l => some (v :: l)
      | _, _ => none)
    (some [])

/-- The `BlackJaxHandler.samples` property: `AttributeError` when the
`states` attribute was never assigned, `dict()` when it is `None`, and the
stacked `.position` field of the collected states otherwise. -/
def Handler.samples (position : St → Dict K V) (h : Handler Pos St In) :
    Except EvofrError (Dict K (List V)) :=
  match h.states_attr with
  | none => Except.error EvofrError.attributeError
  | some none => Except.ok Dict.empty
  | some (some r) => Except.ok (stack_positions position r.1)

/-- `BlackJaxHandler.predict(model, data)`: delegates to `_predict` with the
*stored* rng key and the `samples` property.  The method body performs no
attribute assignment, so the handler is returned unchanged (first
component); evaluating `self.samples` can raise, hence the `Except`. -/
def Handler.predict (P : Mf → Dict K (List V) → ℕ → Dt → Dict K (List V))
    (position : St → Dict K V) (h : Handler Pos St In)
    (model : ModelSpec Pos Mf Dt K V) (data : Dt) :
    Handler Pos St In × Except EvofrError (Dict K (List V)) :=
  ⟨h, (Handler.samples position h).map
    (fun s => resolve_predict P h.rng_key model data s none)⟩

end Infer

/-!
## Generative models (`model_factories.py`, `multinomial_logistic_regression.py`)

`seq_counts` is a `T × V` matrix of observed sequence counts; a `none`
entry models a NaN (missing) observation, which `np.ma.masked_invalid`
masks out. Time indices of the padded prevalence array run over
`Fin (T + seed_L + forecast_L)`; the observation at raw time `t` sits at
padded index `seed_L + t` (`obs_range = arange(seed_L, seed_L + T)`).
-/

/-- `first_obs` (line 60 of `model_factories.py`):
`(np.ma.masked_invalid(seq_counts) != 0).argmax(axis=0)` -- the earliest
time index with a valid, nonzero sequence count for variant `v`; `0` when
no such index exists (argmax of an all-False column). -/
def first_obs {T V : ℕ} (seq_counts : Fin T → Fin V → Option ℕ)
    (v : Fin V) : ℕ :=
  match (List.finRange T).find?
      (fun t => match seq_counts t v with
        | some c => c != 0
        | none => false) with
  | some t => t.1
  | none => 0

/-- The introductions matrix (lines 61-66 and 80-86 of
`model_factories.py`): a zero matrix of shape
`(T + seed_L + forecast_L, N_variant)` scattered with
`intros[first_obs[v] + d, v] = I0[v]` for every offset `d < seed_L`
(`intro_dates` are `first_obs + d`, columns are `tile(arange(N_variant),
seed_L)`, values are `tile(I0, seed_L)`). -/
def introsMatrix {T V : ℕ} (seed_L forecast_L : ℕ)
    (seq_counts : Fin T → Fin V → Option ℕ) (I0 : Fin V → ℝ)
    (t : Fin (T + seed_L + forecast_L)) (v : Fin V) : ℝ :=
  if (List.range seed_L).any (fun d => t.1 == first_obs seq_counts v + d)
  then I0 v else 0

/-- The padded index of the observation at raw time `t`:
`obs_range = jnp.arange(seed_L, seed_L + T)`. -/
def obs_idx {T : ℕ} (seed_L forecast_L : ℕ) (t : Fin T) :
    Fin (T + seed_L + forecast_L) :=
  ⟨seed_L + t.1, by have h := t.2; omega⟩

/-- The renewal model's reporting cycle before normalisation (line 91):
`jnp.exp(jnp.append(rho_logits, 0.0))` -- the six sampled logits
exponentiated, with one implicit reference entry `exp 0` appended. -/
noncomputable def renewal_rho_raw (rho_logits : Fin 6 → ℝ) : Fin 7 → ℝ :=
  fun i => Real.exp (if h : i.1 < 6 then rho_logits ⟨i.1, h⟩ else 0)

/-- The reporting cycle the renewal model hands to `reporting_to_vec`
(lines 91-94): the raw cycle normalised by its sum, `rho / rho.sum()`. -/
noncomputable def renewal_rho_cycle (rho_logits : Fin 6 → ℝ) : Fin 7 → ℝ :=
  fun i => renewal_rho_raw rho_logits i / ∑ j, renewal_rho_raw rho_logits j

/-- The reporting cycle the spline model hands to `reporting_to_vec`
(lines 188-190): the seven Beta-sampled fractions, passed directly. -/
def spline_rho_cycle (rho : Fin 7 → ℝ) : Fin 7 → ℝ := rho

/-- Frequency derivation shared by both models:
`jnp.divide(I, I.sum(axis=1)[:, None])` -- prevalence normalised across
variants at each time step. -/
noncomputable def freq_full {T V : ℕ} (I : Fin T → Fin V → ℝ) :
    Fin T → Fin V → ℝ :=
  fun t v => I t v / ∑ u, I t u

/-- The renewal model's `freq` deterministic site (lines 126-128):
`jnp.take(_freq, obs_range, axis=0)` of the normalised padded prevalence. -/
noncomputable def renewal_freq {T V : ℕ} (seed_L forecast_L : ℕ)
    (I_prev : Fin (T + seed_L + forecast_L) → Fin V → ℝ) :
    Fin T → Fin V → ℝ :=
  fun t v => freq_full I_prev (obs_idx seed_L forecast_L t) v

/-- The spline model's `freq` deterministic site (lines 196-199). -/
noncomputable def spline_freq {T V : ℕ} (incidence : Fin T → Fin V → ℝ) :
    Fin T → Fin V → ℝ :=
  freq_full incidence

/-- The prevalence restricted to observed time steps,
`jnp.take(I_prev, obs_range, axis=0)`. -/
noncomputable def I_obs {T V : ℕ} (seed_L forecast_L : ℕ)
    (I_prev : Fin (T + seed_L + forecast_L) → Fin V → ℝ) :
    Fin T → Fin V → ℝ :=
  fun t v => I_prev (obs_idx seed_L forecast_L t) v

/-- `jnp.mean(rho_vec)` over the `T` observed time steps. -/
noncomputable def rho_mean {T : ℕ} (rho_vec : Fin T → ℝ) : ℝ :=
  (∑ t, rho_vec t) / T

/-- The renewal model's `I_smooth` deterministic site (lines 100-103):
`jnp.mean(rho_vec) * jnp.take(I_prev, obs_range, axis=0)`. -/
noncomputable def I_smooth {T V : ℕ} (seed_L forecast_L : ℕ)
    (rho_vec : Fin T → ℝ)
    (I_prev : Fin (T + seed_L + forecast_L) → Fin V → ℝ) :
    Fin T → Fin V → ℝ :=
  fun t v => rho_mean rho_vec * I_obs seed_L forecast_L I_prev t v

/-- The renewal model's `r` deterministic site (lines 105-113):
`jnp.diff(jnp.log(jnp.take(I_prev, obs_range, axis=0)), prepend=nan,
axis=0)` -- the log-difference of the *unsmoothed* observed prevalence at
consecutive time steps, with the first entry undefined (NaN, modelled as
`none`). -/
noncomputable def renewal_r {T V : ℕ} (seed_L forecast_L : ℕ)
    (I_prev : Fin (T + seed_L + forecast_L) → Fin V → ℝ) :
    Fin T → Fin V → Option ℝ :=
  fun t v =>
    if t.1 = 0 then none
    else some (Real.log (I_obs seed_L forecast_L I_prev t v) -
      Real.log (I_obs seed_L forecast_L I_prev
        ⟨t.1 - 1, Nat.lt_of_le_of_lt (Nat.sub_le t.1 1) t.2⟩ v))

/-- The MLR coefficient matrix (lines 39-44 of
`multinomial_logistic_regression.py`):
`jnp.column_stack((raw_beta, jnp.zeros(N_features)))` with `raw_beta` of
shape `(N_features, N_variants - 1)`; the variant count is `Vm + 1`. -/
def MLR_beta {F Vm : ℕ} (raw_beta : Fin F → Fin Vm → ℝ) :
    Fin F → Fin (Vm + 1) → ℝ :=
  fun i j => if h : j.1 < Vm then raw_beta i ⟨j.1, h⟩ else 0

/-- The spline model's coefficient matrix (line 183 of
`model_factories.py`):
`beta[:, None] + jnp.hstack((delta, jnp.zeros((k, 1))))` with `delta` of
shape `(k, N_variant - 1)`; the variant count is `Vm + 1`. -/
def spline_beta_mat {k Vm : ℕ} (beta : Fin k → ℝ)
    (delta : Fin k → Fin Vm → ℝ) : Fin k → Fin (Vm + 1) → ℝ :=
  fun t j => beta t + (if h : j.1 < Vm then delta t ⟨j.1, h⟩ else 0)

/-!
## Concrete instantiations used by witnesses and counterexamples
-/

/-- A concrete transition-kernel factory over `ℕ`-typed positions, states
and infos. -/
def kf0 : (ℕ → Option ℚ) → KernelObj ℕ ℕ ℕ :=
  fun _ => ⟨fun _ => 0, fun k s => ⟨s + k, 0⟩⟩

/-- A concrete behaviour for numpyro's `initialize_model`. -/
def E0 : ℕ → ℕ → ℕ → ℕ × (ℕ → ℕ → ℚ) := fun _ _ _ => ⟨0, fun _ _ => 0⟩

/-- A concrete behaviour for blackjax's `window_adaptation`. -/
def W0 : ((ℕ → Option ℚ) → KernelObj ℕ ℕ ℕ) → (ℕ → Option ℚ) → ℤ → ℕ →
    Option ℕ → ℕ × KernelObj ℕ ℕ ℕ :=
  fun kf ld _ _ _ => ⟨0, kf ld⟩

/-- A concrete behaviour for numpyro's `Predictive`. -/
def P0 : ℕ → Dict ℕ (List ℕ) → ℕ → ℕ → Dict ℕ (List ℕ) :=
  fun _ _ _ _ => Dict.empty

/-- A concrete `.position` accessor for collected states. -/
def position0 : ℕ → Dict ℕ ℕ := fun _ => Dict.empty

/-- A model whose `backend` attribute holds a value that matches no known
capability. -/
def model0 : ModelSpec ℕ ℕ ℕ ℕ ℕ := ⟨some Backend.other, 0, none, none, none, none, none⟩

/-- A model with no `backend` attribute (default numpyro dispatch). -/
def model1 : ModelSpec ℕ ℕ ℕ ℕ ℕ := ⟨none, 0, none, none, none, none, none⟩

/-- A sample mapping holding one sampled key `0 ↦ [5]`. -/
def samples0 : Dict ℕ (List ℕ) := fun k => if k = 0 then some [5] else none

/-- Sequence counts with one variant, `T = 3`, first nonzero count at
`t = 1`: column `[0, 1, 1]`. -/
def seq5 : Fin 3 → Fin 1 → Option ℕ :=
  fun t _ => if t.1 = 0 then some 0 else some 1

/-- A unit seed magnitude for the single variant. -/
def I05 : Fin 1 → ℝ := fun _ => 1

/-- A strictly positive padded prevalence with `T = 1`, no padding. -/
def oneI : Fin (1 + 0 + 0) → Fin 1 → ℝ := fun _ _ => 1

/-- A strictly positive spline incidence with `T = 1`. -/
def oneInc : Fin 1 → Fin 1 → ℝ := fun _ _ => 1

/-- A strictly positive padded prevalence with `T = 2`, no padding. -/
def twoI : Fin (2 + 0 + 0) → Fin 1 → ℝ := fun _ _ => 1

/-- A strictly positive reporting vector of length `2`. -/
def twoRho : Fin 2 → ℝ := fun _ => 1

/-!
## Helper lemmas
-/

/-- A key present in the left dictionary stays present in a Python merge. -/
theorem Dict.union_isSome_left {K V : Type} (d1 d2 : Dict K V) (k : K)
    (h : (d1 k).isSome) : ((Dict.union d1 d2) k).isSome := by
  unfold Dict.union
  cases hd : d2 k
  · exact h
  · rfl

/-- Membership of the scattered index set `{first_obs + d | d < L}`. -/
theorem range_any_iff (L f t : ℕ) :
    ((List.range L).any (fun d => t == f + d) = true) ↔ (f ≤ t ∧ t < f + L) := by
  simp only [List.any_eq_true, List.mem_range, beq_iff_eq]
  constructor
  · rintro ⟨d, hd, rfl⟩
    omega
  · rintro ⟨h1, h2⟩
    exact ⟨t - f, by omega, by omega⟩

/-- A strictly positive vector normalised by its own sum sums to 1. -/
theorem sum_div_sum_eq_one {V : ℕ} (x : Fin V → ℝ) (hx : ∀ v, 0 < x v)
    (hV : 0 < V) : ∑ v, x v / (∑ u, x u) = 1 := by
  have hne : Nonempty (Fin V) := ⟨⟨0, hV⟩⟩
  have hpos : 0 < ∑ u, x u :=
    Finset.sum_pos (fun u _ => hx u) Finset.univ_nonempty
  rw [← Finset.sum_div, div_self hpos.ne']

/-!
## Claim theorems
-/

/-- C10: the last variant is the reference variant: for every sampled
`raw_beta` the MLR coefficient matrix `beta` has last column identically
zero, and for every baseline `beta` and growth-advantage walk `delta` the
spline model's `beta_mat` has last column equal to the baseline `beta`
exactly, so growth advantages are relative to the last variant. -/
theorem C10_last_variant_reference (F k Vm : ℕ) :
    (∀ (raw_beta : Fin F → Fin Vm → ℝ) (i : Fin F),
      MLR_beta raw_beta i (Fin.last Vm) = 0) ∧
    (∀ (beta : Fin k → ℝ) (delta : Fin k → Fin Vm → ℝ) (t : Fin k),
      spline_beta_mat beta delta t (Fin.last Vm) = beta t) := by
  constructor
  · intro raw i
    unfold MLR_beta
    simp only [Fin.val_last]
    rw [dif_neg (lt_irrefl Vm)]
  · intro beta delta t
    unfold spline_beta_mat
    simp only [Fin.val_last]
    rw [dif_neg (lt_irrefl Vm), add_zero]

/-- C4: evaluating the `samples` property on a freshly constructed handler
raises `AttributeError`: `__init__` assigns `self.state = None` (a typo)
while `samples` reads `self.states`, which was never assigned -- the
`return dict()` fallback guarded by `if self.states is not None` is
unreachable, so the claimed empty mapping is never returned before `fit`. -/
theorem C4_samples_attribute_bug :
    Handler.samples position0 (mkHandler kf0) =
      Except.error EvofrError.attributeError := rfl

/-- C6 counterexample: in the spline model the cycle handed to
`reporting_to_vec` is the seven Beta-sampled fractions themselves -- for the
sampled value `rho ≡ 1/2` (inside Beta's support) the cycle is passed
through unchanged and its sum is `7/2 ≠ 1`, so it is neither extended by an
implicit reference value of 1 nor normalised to sum 1. -/
theorem C6_counterexample :
    spline_rho_cycle (fun _ => (1 : ℝ) / 2) = (fun _ => (1 : ℝ) / 2) ∧
    (∑ i, spline_rho_cycle (fun _ => (1 : ℝ) / 2) i) ≠ 1 := by
  refine ⟨rfl, ?_⟩
  rw [show (∑ i, spline_rho_cycle (fun _ => (1 : ℝ) / 2) i) = ∑ _i : Fin 7, (1 : ℝ) / 2 from rfl]
  rw [Finset.sum_const, Finset.card_univ, Fintype.card_fin]
  norm_num

/-- C6 amended: the renewal model's reporting cycle is the six sampled
logits exponentiated plus one implicit reference entry `exp 0 = 1`,
normalised so the full cycle sums to 1 before tiling; the spline model's
cycle is the seven Beta-sampled fractions handed to the tiling function
directly, with no implicit entry and no normalisation. -/
theorem C6_reporting_cycle_amended :
    (∀ rho_logits : Fin 6 → ℝ,
      (∑ i, renewal_rho_cycle rho_logits i) = 1 ∧
      renewal_rho_raw rho_logits 6 = 1) ∧
    (∀ rho : Fin 7 → ℝ, spline_rho_cycle rho = rho) := by
  refine ⟨fun logits => ⟨?_, ?_⟩, fun rho => rfl⟩
  · have hpos : 0 < ∑ j, renewal_rho_raw logits j :=
      Finset.sum_pos (fun j _ => Real.exp_pos _) Finset.univ_nonempty
    unfold renewal_rho_cycle
    rw [← Finset.sum_div, div_self hpos.ne']
  · unfold renewal_rho_raw
    rw [dif_neg (by decide)]
    exact Real.exp_zero

/-- C1 counterexample: with a model whose `backend` value matches no known
capability, the resolver's predictive path returns `dict()`, dropping the
sampled key `0 ↦ [5]` of the input sample mapping. -/
theorem C1_counterexample :
    resolve_predict P0 0 model0 0 samples0 none 0 = none ∧
    samples0 0 = some [5] := ⟨rfl, rfl⟩

/-- C1 amended: for every backend value that resolves to a known capability
(`None`, `NUMPYRO` or `PROVIDED`) the predictive path returns the union
`{**samples, **samples_pred}` (or `samples` itself when the model has no
predictive function), so every key present in the input sample mapping
remains present; a backend matching no known capability instead returns the
empty mapping. -/
theorem C1_predict_superset_amended {Pos Mf Dt K V : Type}
    (P : Mf → Dict K (List V) → ℕ → Dt → Dict K (List V)) (key : ℕ)
    (model : ModelSpec Pos Mf Dt K V) (data : Dt)
    (samples : Dict K (List V)) (backend : Option Backend)
    (hb : effectiveBackend model backend ≠ some Backend.other) (name : K)
    (hs : (samples name).isSome) :
    ((resolve_predict P key model data samples backend) name).isSome := by
  unfold resolve_predict
  rcases hE : effectiveBackend model backend with _ | b
  · exact Dict.union_isSome_left _ _ _ hs
  · cases b
    · exact Dict.union_isSome_left _ _ _ hs
    · unfold BlackJaxProvided.predict
      cases hp : model.pred_fn?
      · exact hs
      · exact Dict.union_isSome_left _ _ _ hs
    · exact absurd hE hb

/-- C1 witness: the amended superset property at a concrete model with no
declared backend and a sample mapping holding the key `0 ↦ [5]`. -/
theorem C1_witness :
    effectiveBackend model1 none ≠ some Backend.other ∧
    (samples0 0).isSome ∧
    ((resolve_predict P0 0 model1 0 samples0 none) 0).isSome :=
  ⟨by decide, rfl,
    C1_predict_superset_amended P0 0 model1 0 samples0 none (by decide) 0 rfl⟩

/-- C5 counterexample: one variant, `T = 3`, `seed_L = 2`, first nonzero
sequence count at raw index `t0 = 1`, seed magnitude 1.  In the padded
array the first detection is observed at index `seed_L + t0 = 3`, yet the
scattered seeding window is `{1, 2}`: the entry at the first-detection day
(index 3) is `0` -- so the window does not end at the first-detection day --
and the seed sits at index `1 = t0` instead; the entry at index `0 =
t0 - seed_L + 1` is also `0`, so under the raw-index reading the window
does not start at `(first nonzero day - seed_L + 1)` either. -/
theorem C5_counterexample :
    introsMatrix 2 0 seq5 I05 ⟨3, by omega⟩ 0 = 0 ∧
    introsMatrix 2 0 seq5 I05 ⟨1, by omega⟩ 0 = 1 ∧
    introsMatrix 2 0 seq5 I05 ⟨0, by omega⟩ 0 = 0 := ⟨rfl, rfl, rfl⟩

/-- C5 amended: for every variant `v` the seeding window occupies the
`seed_L` consecutive padded-array days starting at the raw first-detection
index `first_obs v` -- i.e. it ends at `first_obs v + seed_L - 1`, the day
immediately *before* the padded index `seed_L + first_obs v` at which the
first detection is observed -- and the sampled seed magnitude `I0 v` is
placed identically on each day of that window, with every day outside the
window left at zero. -/
theorem C5_seeding_window_amended {T V : ℕ} (seed_L forecast_L : ℕ)
    (seq_counts : Fin T → Fin V → Option ℕ) (I0 : Fin V → ℝ)
    (t : Fin (T + seed_L + forecast_L)) (v : Fin V) :
    introsMatrix seed_L forecast_L seq_counts I0 t v =
      if first_obs seq_counts v ≤ t.1 ∧
          t.1 < first_obs seq_counts v + seed_L
      then I0 v else 0 := by
  have hiff := range_any_iff seed_L (first_obs seq_counts v) t.1
  unfold introsMatrix
  by_cases hc : first_obs seq_counts v ≤ t.1 ∧
      t.1 < first_obs seq_counts v + seed_L
  · rw [if_pos (hiff.mpr hc), if_pos hc]
  · rw [if_neg (fun hb => hc (hiff.mp hb)), if_neg hc]

/-- C8: for every strictly positive prevalence trajectory the derived
frequency trajectory has each row (each time step, across variants) summing
to 1, both for the renewal model's `freq` (taken over the observation
range) and for the spline model's `freq`. -/
theorem C8_freq_rows_sum_one {T V : ℕ} (seed_L forecast_L : ℕ)
    (I_prev : Fin (T + seed_L + forecast_L) → Fin V → ℝ)
    (incidence : Fin T → Fin V → ℝ)
    (hI : ∀ t v, 0 < I_prev t v) (hinc : ∀ t v, 0 < incidence t v)
    (hV : 0 < V) :
    (∀ t : Fin T, ∑ v, renewal_freq seed_L forecast_L I_prev t v = 1) ∧
    (∀ t : Fin T, ∑ v, spline_freq incidence t v = 1) := by
  constructor
  · intro t
    unfold renewal_freq freq_full
    exact sum_div_sum_eq_one _ (fun v => hI _ v) hV
  · intro t
    unfold spline_freq freq_full
    exact sum_div_sum_eq_one _ (fun v => hinc t v) hV

/-- C8 witness: both row-sum identities at the concrete strictly positive
trajectories `oneI` and `oneInc` with one variant and one time step. -/
theorem C8_witness :
    (∑ v, renewal_freq 0 0 oneI 0 v = 1) ∧
    (∑ v, spline_freq oneInc 0 v = 1) :=
  ⟨(C8_freq_rows_sum_one 0 0 oneI oneInc (fun _ _ => one_pos)
      (fun _ _ => one_pos) one_pos).1 0,
   (C8_freq_rows_sum_one 0 0 oneI oneInc (fun _ _ => one_pos)
      (fun _ _ => one_pos) one_pos).2 0⟩

/-- C9: for every strictly positive prevalence trajectory and reporting
vector, the renewal model's derived growth rate `r` at each observed time
step past the first equals the log-difference of the smoothed prevalence
`I_smooth` at consecutive observed time steps (the first entry is
undefined/NaN): although `r` is computed from the unsmoothed prevalence,
the log-differences coincide because smoothing multiplies every time step
by the same positive scalar `mean(rho_vec)`. -/
theorem C9_growth_rate_log_diff {T V : ℕ} (seed_L forecast_L : ℕ)
    (I_prev : Fin (T + seed_L + forecast_L) → Fin V → ℝ)
    (rho_vec : Fin T → ℝ)
    (hI : ∀ t v, 0 < I_prev t v) (hrho : ∀ t, 0 < rho_vec t)
    (t : Fin T) (v : Fin V) (ht : t.1 ≠ 0) :
    renewal_r seed_L forecast_L I_prev t v =
      some (Real.log (I_smooth seed_L forecast_L rho_vec I_prev t v) -
        Real.log (I_smooth seed_L forecast_L rho_vec I_prev
          ⟨t.1 - 1, Nat.lt_of_le_of_lt (Nat.sub_le t.1 1) t.2⟩ v)) := by
  have hne : Nonempty (Fin T) := ⟨t⟩
  have hT : (0 : ℝ) < T := by
    have h2 := t.2
    exact_mod_cast Nat.lt_of_le_of_lt (Nat.zero_le t.1) h2
  have hc : 0 < rho_mean rho_vec :=
    div_pos (Finset.sum_pos (fun i _ => hrho i) Finset.univ_nonempty) hT
  have ha : 0 < I_obs seed_L forecast_L I_prev t v := hI _ v
  have hb : 0 < I_obs seed_L forecast_L I_prev
      ⟨t.1 - 1, Nat.lt_of_le_of_lt (Nat.sub_le t.1 1) t.2⟩ v := hI _ v
  unfold renewal_r I_smooth
  rw [if_neg ht]
  congr 1
  rw [Real.log_mul hc.ne' ha.ne', Real.log_mul hc.ne' hb.ne']
  ring

/-- C9 witness: the log-difference identity at the concrete strictly
positive trajectory `twoI` and reporting vector `twoRho`, at the second
observed time step. -/
theorem C9_witness :
    ((0 : ℝ) < 1) ∧
    renewal_r 0 0 twoI ⟨1, by omega⟩ 0 =
      some (Real.log (I_smooth 0 0 twoRho twoI ⟨1, by omega⟩ 0) -
        Real.log (I_smooth 0 0 twoRho twoI ⟨0, by omega⟩ 0)) :=
  ⟨one_pos, C9_growth_rate_log_diff 0 0 twoI twoRho (fun _ _ => one_pos)
    (fun _ => one_pos) ⟨1, by omega⟩ 0 (by decide)⟩

/-- C3: calling `fit` with a negative `num_samples` fails with the
configuration error raised when splitting a negative number of sampling
keys, before any transition step of the sampling loop is attempted (the
result is an error for *every* behaviour of the kernel and of the external
collaborators, so no sampling can have occurred). -/
theorem C3_negative_num_samples {Pos St In Mf Dt K V : Type}
    (E : ℕ → Mf → Dt → Pos × (Dt → Pos → ℚ))
    (W : ((Pos → Option ℚ) → KernelObj Pos St In) → (Pos → Option ℚ) → ℤ →
      ℕ → Option Pos → St × KernelObj Pos St In)
    (h : Handler Pos St In) (model : ModelSpec Pos Mf Dt K V) (data : Dt)
    (num_warmup num_samples : ℤ) (hns : num_samples < 0) :
    Handler.fit E W h model data num_warmup num_samples =
      Except.error EvofrError.configurationError := by
  simp only [Handler.fit, fit_core, inference_loop, keySplitN, if_pos hns]

/-- C3 witness: `fit` with `num_samples = -1` on a freshly constructed
handler surfaces the configuration error. -/
theorem C3_witness :
    (-1 : ℤ) < 0 ∧
    Handler.fit E0 W0 (mkHandler kf0) model0 0 0 (-1) =
      Except.error EvofrError.configurationError :=
  ⟨by decide,
    C3_negative_num_samples E0 W0 (mkHandler kf0) model0 0 0 (-1) (by decide)⟩

/-- C2 counterexample: calling `predict` on a freshly constructed handler
leaves the stored rng key exactly as it was (the method passes
`self.rng_key` to the predictive path without splitting and assigns
nothing), whereas advancing it once would have replaced it by the first
child of a split, a different key. -/
theorem C2_counterexample :
    (Handler.predict P0 position0 (mkHandler kf0) model0 0).1.rng_key =
      (mkHandler kf0).rng_key ∧
    (keySplit (mkHandler kf0).rng_key).1 ≠ (mkHandler kf0).rng_key :=
  ⟨rfl, by decide⟩

/-- C2 amended: during `fit` each randomness-consuming phase --
initialisation, warmup (when `num_warmup > 0`), and the sampling loop --
splits a fresh sub-key from the stored rng state and advances it exactly
once, so the stored key after `fit` is the threefold (resp. twofold, when
warmup is skipped) first-child iterate of the key before; `predict`,
however, uses the stored key without splitting it and leaves the handler's
state unchanged. -/
theorem C2_rng_advance_amended {Pos St In Mf Dt K V : Type}
    (E : ℕ → Mf → Dt → Pos × (Dt → Pos → ℚ))
    (W : ((Pos → Option ℚ) → KernelObj Pos St In) → (Pos → Option ℚ) → ℤ →
      ℕ → Option Pos → St × KernelObj Pos St In)
    (P : Mf → Dict K (List V) → ℕ → Dt → Dict K (List V))
    (position : St → Dict K V)
    (h : Handler Pos St In) (model : ModelSpec Pos Mf Dt K V) (data : Dt)
    (num_warmup num_samples : ℤ) (hns : 0 ≤ num_samples) :
    (0 < num_warmup →
      (Handler.fit E W h model data num_warmup num_samples).map Handler.rng_key =
        Except.ok (keySplit (keySplit (keySplit h.rng_key).1).1).1) ∧
    (num_warmup ≤ 0 →
      (Handler.fit E W h model data num_warmup num_samples).map Handler.rng_key =
        Except.ok (keySplit (keySplit h.rng_key).1).1) ∧
    (Handler.predict P position h model data).1 = h := by
  refine ⟨fun hw => ?_, fun hw => ?_, rfl⟩
  · simp only [Handler.fit, fit_core, run_warmup_core, inference_loop,
      keySplitN, if_pos hw, if_neg (not_lt.mpr hns), Except.map]
  · simp only [Handler.fit, fit_core, inference_loop, keySplitN,
      if_neg (not_lt.mpr hw), if_neg (not_lt.mpr hns), Except.map]

/-- C2 witness: the amended key-advancement discipline at a concrete
handler with `num_warmup = 1` and `num_samples = 2`. -/
theorem C2_witness :
    (0 : ℤ) ≤ 2 ∧
    ((0 < (1 : ℤ) →
      (Handler.fit E0 W0 (mkHandler kf0) model0 0 1 2).map Handler.rng_key =
        Except.ok (keySplit (keySplit (keySplit (mkHandler kf0).rng_key).1).1).1) ∧
    ((1 : ℤ) ≤ 0 →
      (Handler.fit E0 W0 (mkHandler kf0) model0 0 1 2).map Handler.rng_key =
        Except.ok (keySplit (keySplit (mkHandler kf0).rng_key).1).1) ∧
    (Handler.predict P0 position0 (mkHandler kf0) model0 0).1 = mkHandler kf0) :=
  ⟨by decide,
    C2_rng_advance_amended E0 W0 P0 position0 (mkHandler kf0) model0 0 1 2 (by decide)⟩

/-- C7: every fresh construction fixes the stored rng state to
`PRNGKey 100`, and the outcome of `fit` depends only on the stored kernel
factory and rng state (not on any other mutable attribute), so two `fit`
runs on freshly constructed handlers with identical kernel, model, data,
`num_warmup` and `num_samples` collect identical sample sets. -/
theorem C7_fit_deterministic {Pos St In Mf Dt K V : Type}
    (E : ℕ → Mf → Dt → Pos × (Dt → Pos → ℚ))
    (W : ((Pos → Option ℚ) → KernelObj Pos St In) → (Pos → Option ℚ) → ℤ →
      ℕ → Option Pos → St × KernelObj Pos St In)
    (model : ModelSpec Pos Mf Dt K V) (data : Dt)
    (num_warmup num_samples : ℤ)
    (kf : (Pos → Option ℚ) → KernelObj Pos St In)
    (h1 h2 : Handler Pos St In)
    (hk : h1.kernel_fn = h2.kernel_fn) (hr : h1.rng_key = h2.rng_key) :
    (mkHandler kf).rng_key = PRNGKey 100 ∧
    (Handler.fit E W h1 model data num_warmup num_samples).map Handler.states_attr =
      (Handler.fit E W h2 model data num_warmup num_samples).map Handler.states_attr := by
  refine ⟨rfl, ?_⟩
  unfold Handler.fit
  rw [hk, hr]
  cases fit_core E W h2.kernel_fn h2.rng_key model data num_warmup num_samples <;> rfl

/-- C7 witness: two freshly constructed handlers with the same kernel
factory agree on the collected sample set of an identically configured
`fit` run. -/
theorem C7_witness :
    (mkHandler kf0).rng_key = PRNGKey 100 ∧
    (Handler.fit E0 W0 (mkHandler kf0) model0 0 1 2).map Handler.states_attr =
      (Handler.fit E0 W0 (mkHandler kf0) model0 0 1 2).map Handler.states_attr :=
  C7_fit_deterministic E0 W0 model0 0 1 2 kf0 (mkHandler kf0) (mkHandler kf0)
    rfl rfl
